import Mathlib

/-!
Shallow embedding of the KENKI OS AI-assist modules
(`translate.py`, `explain.py`, `kenki_assist.py`) and proofs about them.

AI backends (the Anthropic client and the local llama.cpp model) are modelled
as optional functions `String → Except String String`: they receive the prompt
text and either return the response text or raise an exception (`Except.error`).
File and network I/O is abstracted away; the pure string-processing logic is
translated directly from the Python source.
-/

/-- Python whitespace characters (`str.strip` / `str.split` / regex `\s`, ASCII part). -/
def pyIsSpace (c : Char) : Bool :=
  c == ' ' || c == '\t' || c == '\n' || c == '\r' || c == '\x0b' || c == '\x0c'

/-- Python `str.strip()`: remove leading and trailing whitespace. -/
def pyStrip (s : String) : String :=
  String.mk (((s.data.dropWhile pyIsSpace).reverse.dropWhile pyIsSpace).reverse)

/-- Python `str.lower()` (ASCII). -/
def pyLower (s : String) : String :=
  String.mk (s.data.map Char.toLower)

/-- Is `needle` a leading segment of `s`? -/
def leadsWith : List Char → List Char → Bool
  | [], _ => true
  | _ :: _, [] => false
  | a :: as, b :: bs => a == b && leadsWith as bs

/-- Does `needle` occur contiguously in `s`?  (helper on lists) -/
def listContainsSub (needle : List Char) : List Char → Bool
  | [] => leadsWith needle []
  | c :: t => leadsWith needle (c :: t) || listContainsSub needle t

/-- Python `needle in hay` on strings (substring containment). -/
def strContains (hay needle : String) : Bool :=
  listContainsSub needle.data hay.data

/-- Python `str.split()` with no argument: split on whitespace runs, no empty parts. -/
def pySplitAux : List Char → List Char → List String
  | [], [] => []
  | [], acc => [String.mk acc.reverse]
  | c :: t, acc =>
    if pyIsSpace c then
      match acc with
      | [] => pySplitAux t []
      | _ :: _ => String.mk acc.reverse :: pySplitAux t []
    else pySplitAux t (c :: acc)

/-- Python `str.split()` with no argument. -/
def pySplit (s : String) : List String := pySplitAux s.data []

/-! ## A small backtracking regex engine (Python `re` semantics)

Only the constructs appearing in the repository's patterns are supported:
character classes, literals (case-sensitive and `re.IGNORECASE`),
concatenation, alternation `|` (leftmost preferred), greedy counted
repetition `{m,n}` / `+` / `*` / `?`, and the word boundary `\b`.
`reSearch` scans start positions left to right and returns the leftmost
match, with greedy backtracking inside each attempt — the semantics of
`re.search`. -/

/-- Character classes used by the repository's regexes. -/
inductive Cls : Type where
  | digit : Cls
  | wsC : Cls
  | alnum : Cls
  | alnumDash : Cls
  | alphaC : Cls
  | chr : Char → Cls
  | chrCI : Char → Cls
deriving DecidableEq

/-- Does character `c` belong to the class? -/
def Cls.test : Cls → Char → Bool
  | .digit, c => c.isDigit
  | .wsC, c => pyIsSpace c
  | .alnum, c => c.isAlpha || c.isDigit
  | .alnumDash, c => c.isAlpha || c.isDigit || c == '-'
  | .alphaC, c => c.isAlpha
  | .chr a, c => c == a
  | .chrCI a, c => c.toLower == a.toLower

/-- Regex abstract syntax. `rep r lo hi` is greedy `r{lo,hi}` (`hi = none` unbounded). -/
inductive Rx : Type where
  | eps : Rx
  | cls : Cls → Rx
  | cat : Rx → Rx → Rx
  | alt : Rx → Rx → Rx
  | rep : Rx → Nat → Option Nat → Rx
  | wordB : Rx
deriving DecidableEq

/-- Python `\w`: ASCII letters, digits, underscore. -/
def isWordChar (c : Char) : Bool := c.isAlpha || c.isDigit || c == '_'

/-- Word boundary test: previous character (if any) and next character (if any)
disagree on word-ness. -/
def atBoundary (pr : Option Char) (s : List Char) : Bool :=
  (match pr with | some c => isWordChar c | none => false)
    != (match s with | ch :: _ => isWordChar ch | [] => false)

/-- Decrement an optional repetition bound. -/
def decOpt (h : Option Nat) : Option Nat := h.map (· - 1)

/-- Fueled backtracking matcher in continuation-passing style.
`pr` is the character just before the current position (for `\b`), `s` the
remaining input; on success the continuation receives the new position.
The top-level continuation returns the remainder after the match, so the
first overall success (greedy, leftmost alternatives first) wins — Python
`re` behaviour. -/
def mtch : Nat → Rx → Option Char → List Char →
    (Option Char → List Char → Option (List Char)) → Option (List Char)
  | 0, _, _, _, _ => none
  | _ + 1, .eps, pr, s, k => k pr s
  | _ + 1, .cls c, _, s, k =>
    match s with
    | [] => none
    | ch :: rest => if c.test ch then k (some ch) rest else none
  | f + 1, .cat a b, pr, s, k => mtch f a pr s (fun pr2 s2 => mtch f b pr2 s2 k)
  | f + 1, .alt a b, pr, s, k =>
    match mtch f a pr s k with
    | some r => some r
    | none => mtch f b pr s k
  | _ + 1, .wordB, pr, s, k => if atBoundary pr s then k pr s else none
  | f + 1, .rep a lo hi, pr, s, k =>
    match lo with
    | l + 1 => mtch f a pr s (fun pr2 s2 => mtch f (.rep a l (decOpt hi)) pr2 s2 k)
    | 0 =>
      match hi with
      | some 0 => k pr s
      | _ =>
        match mtch f a pr s (fun pr2 s2 =>
            if s2.length < s.length then mtch f (.rep a 0 (decOpt hi)) pr2 s2 k
            else k pr2 s2) with
        | some r => some r
        | none => k pr s

/-- Try to match `r` at successive start positions; return the leftmost
matched substring (`re.search`). -/
def reSearchAux (r : Rx) : Option Char → List Char → Option String
  | pr, s =>
    match mtch (2 * s.length + 200) r pr s (fun _ rest => some rest) with
    | some rest => some (String.mk (s.take (s.length - rest.length)))
    | none =>
      match s with
      | [] => none
      | c :: t => reSearchAux r (some c) t

/-- Python `re.search(pattern, text)`, returning `match.group()` when a match exists. -/
def reSearch (r : Rx) (s : String) : Option String := reSearchAux r none s.data

/-- Case-sensitive literal. -/
def lit (s : String) : Rx :=
  s.data.foldr (fun c r => Rx.cat (Rx.cls (Cls.chr c)) r) Rx.eps

/-- Literal under `re.IGNORECASE`. -/
def litCI (s : String) : Rx :=
  s.data.foldr (fun c r => Rx.cat (Rx.cls (Cls.chrCI c)) r) Rx.eps

/-- Greedy `+`. -/
def plus1 (r : Rx) : Rx := Rx.rep r 1 none

/-- Greedy `*`. -/
def star0 (r : Rx) : Rx := Rx.rep r 0 none

/-- Greedy `?`. -/
def opt1 (r : Rx) : Rx := Rx.alt r Rx.eps

/-! ## Regexes appearing in `translate.py` -/

/-- `r'\b(?:\d{1,3}\.){3}\d{1,3}\b'` — the IP-address pattern of `_extract_target`. -/
def ipPattern : Rx :=
  Rx.cat .wordB
    (Rx.cat (Rx.rep (Rx.cat (Rx.rep (Rx.cls .digit) 1 (some 3)) (lit ".")) 3 (some 3))
      (Rx.cat (Rx.rep (Rx.cls .digit) 1 (some 3)) .wordB))

/-- One domain label followed by a dot:
`[a-zA-Z0-9](?:[a-zA-Z0-9-]{0,61}[a-zA-Z0-9])?\.` -/
def domainLabel : Rx :=
  Rx.cat (Rx.cls .alnum)
    (Rx.cat (opt1 (Rx.cat (Rx.rep (Rx.cls .alnumDash) 0 (some 61)) (Rx.cls .alnum)))
      (lit "."))

/-- `r'\b(?:[a-zA-Z0-9](?:[a-zA-Z0-9-]{0,61}[a-zA-Z0-9])?\.)+[a-zA-Z]{2,}\b'` —
the domain-name pattern of `_extract_target`. -/
def domainPattern : Rx :=
  Rx.cat .wordB
    (Rx.cat (plus1 domainLabel) (Rx.cat (Rx.rep (Rx.cls .alphaC) 2 none) .wordB))

/-- `r'\b(?:localhost|127\.0\.0\.1)\b'` — the hostname pattern of `_extract_target`. -/
def hostnamePattern : Rx :=
  Rx.cat .wordB (Rx.cat (Rx.alt (lit "localhost") (lit "127.0.0.1")) .wordB)

/-- `r'\d+\.\d+\.\d+\.\d+'` — the target check inside `validate_command`. -/
def nmapTargetRx : Rx :=
  Rx.cat (plus1 (Rx.cls .digit))
    (Rx.cat (lit ".")
      (Rx.cat (plus1 (Rx.cls .digit))
        (Rx.cat (lit ".")
          (Rx.cat (plus1 (Rx.cls .digit))
            (Rx.cat (lit ".") (plus1 (Rx.cls .digit)))))))

/-! ## AI backends -/

/-- The two optional AI clients held by each module: the Anthropic (Claude)
client and the local llama.cpp model.  Each is modelled as a function from the
prompt to either the response text or a raised exception. -/
structure AIBackends where
  claude : Option (String → Except String String)
  localLLM : Option (String → Except String String)

/-! ## `translate.py` — `ShellTranslator` -/

/-- `security_patterns['network_scan']`. -/
def networkScanPats : List String :=
  ["scan network", "find open ports", "check ports", "network discovery",
   "port scan", "host discovery", "network enumeration"]

/-- `security_patterns['vulnerability_scan']`. -/
def vulnerabilityScanPats : List String :=
  ["vulnerability scan", "security scan", "find vulnerabilities",
   "security assessment", "penetration test", "security audit"]

/-- `security_patterns['web_scan']`. -/
def webScanPats : List String :=
  ["web scan", "website scan", "web application test", "web security",
   "web vulnerability", "web audit", "web penetration test"]

/-- `security_patterns['password_crack']`. -/
def passwordCrackPats : List String :=
  ["crack password", "break password", "password recovery",
   "hash crack", "password attack", "brute force"]

/-- `security_patterns['wireless_attack']`. -/
def wirelessAttackPats : List String :=
  ["wifi hack", "wireless attack", "wifi crack", "wireless security",
   "wifi password", "wireless network", "wifi audit"]

/-- `security_patterns['forensics']`. -/
def forensicsPats : List String :=
  ["forensics", "memory analysis", "disk analysis", "file recovery",
   "evidence analysis", "digital forensics", "incident response"]

/-- `security_patterns['malware_analysis']`. -/
def malwareAnalysisPats : List String :=
  ["malware analysis", "virus analysis", "reverse engineering",
   "binary analysis", "malware reverse", "virus reverse"]

/-- `security_patterns['osint']`. -/
def osintPats : List String :=
  ["osint", "open source intelligence", "information gathering",
   "reconnaissance", "intelligence gathering", "threat intelligence"]

/-- `any(pattern in text_lower for pattern in pats)`. -/
def anyPatIn (pats : List String) (textLower : String) : Bool :=
  pats.any (fun p => strContains textLower p)

/-- `ShellTranslator._extract_target`. -/
def extract_target (text : String) : String :=
  match reSearch ipPattern text with
  | some m => m
  | none =>
    match reSearch domainPattern text with
    | some m => m
    | none =>
      match reSearch hostnamePattern text with
      | some m => m
      | none => "192.168.1.1"

/-- `ShellTranslator._generate_network_scan_command`. -/
def generate_network_scan_command (text : String) : String :=
  let target := extract_target text
  if strContains (pyLower text) "quick" || strContains (pyLower text) "fast" then
    "nmap -sS -p 80,443,22,21,23,25,53,110,143,993,995 " ++ target
  else if strContains (pyLower text) "comprehensive" || strContains (pyLower text) "full" then
    "nmap -sS -sV -O -p- " ++ target
  else if strContains (pyLower text) "stealth" || strContains (pyLower text) "quiet" then
    "nmap -sS -T2 -p 80,443,22 " ++ target
  else
    "nmap -sS -p 80,443,22,21,23,25,53 " ++ target

/-- `ShellTranslator._generate_vulnerability_scan_command`. -/
def generate_vulnerability_scan_command (text : String) : String :=
  let target := extract_target text
  if strContains (pyLower text) "web" then
    "nikto -h " ++ target
  else if strContains (pyLower text) "network" then
    "nmap -sS -sV --script vuln " ++ target
  else
    "nmap -sS -sV --script vuln " ++ target

/-- `ShellTranslator._generate_web_scan_command`. -/
def generate_web_scan_command (text : String) : String :=
  let target := extract_target text
  if strContains (pyLower text) "directory" || strContains (pyLower text) "dir" then
    "dirb http://" ++ target
  else if strContains (pyLower text) "wordpress" then
    "wpscan --url http://" ++ target
  else if strContains (pyLower text) "joomla" then
    "joomscan --url http://" ++ target
  else
    "nikto -h " ++ target

/-- `ShellTranslator._generate_password_crack_command`. -/
def generate_password_crack_command (text : String) : String :=
  if strContains (pyLower text) "hash" then
    "john --wordlist=/usr/share/wordlists/rockyou.txt hash.txt"
  else if strContains (pyLower text) "zip" then
    "john --wordlist=/usr/share/wordlists/rockyou.txt archive.zip"
  else
    "john --wordlist=/usr/share/wordlists/rockyou.txt password.txt"

/-- `ShellTranslator._generate_wireless_attack_command`. -/
def generate_wireless_attack_command (text : String) : String :=
  if strContains (pyLower text) "capture" || strContains (pyLower text) "handshake" then
    "airodump-ng -w capture wlan0"
  else if strContains (pyLower text) "crack" || strContains (pyLower text) "attack" then
    "aircrack-ng -w /usr/share/wordlists/rockyou.txt capture-01.cap"
  else
    "airodump-ng wlan0"

/-- `ShellTranslator._generate_forensics_command`. -/
def generate_forensics_command (text : String) : String :=
  if strContains (pyLower text) "memory" then
    "volatility -f memory.dmp imageinfo"
  else if strContains (pyLower text) "disk" then
    "strings disk.img | grep -i password"
  else
    "strings file.bin | grep -i suspicious"

/-- `ShellTranslator._generate_malware_analysis_command`. -/
def generate_malware_analysis_command (text : String) : String :=
  if strContains (pyLower text) "static" then
    "strings malware.exe"
  else if strContains (pyLower text) "dynamic" then
    "strace ./malware"
  else
    "file malware.exe"

/-- `ShellTranslator._generate_osint_command`. -/
def generate_osint_command (text : String) : String :=
  let target := extract_target text
  if strContains (pyLower text) "email" then
    "theharvester -d " ++ target ++ " -b google"
  else if strContains (pyLower text) "domain" then
    "amass enum -d " ++ target
  else
    "theharvester -d " ++ target ++ " -b all"

/-- `ShellTranslator._match_security_patterns`. -/
def match_security_patterns (text : String) : Option String :=
  let tl := pyLower text
  if anyPatIn networkScanPats tl then some (generate_network_scan_command text)
  else if anyPatIn vulnerabilityScanPats tl then some (generate_vulnerability_scan_command text)
  else if anyPatIn webScanPats tl then some (generate_web_scan_command text)
  else if anyPatIn passwordCrackPats tl then some (generate_password_crack_command text)
  else if anyPatIn wirelessAttackPats tl then some (generate_wireless_attack_command text)
  else if anyPatIn forensicsPats tl then some (generate_forensics_command text)
  else if anyPatIn malwareAnalysisPats tl then some (generate_malware_analysis_command text)
  else if anyPatIn osintPats tl then some (generate_osint_command text)
  else none

/-- Fixed text before the interpolated request in `_translate_with_ai`'s prompt. -/
def translatePromptPre : String :=
  "\n        Convert this natural language request into a Linux shell command for security testing:\n        \n        Request: "

/-- Fixed text after the interpolated request in `_translate_with_ai`'s prompt. -/
def translatePromptPost : String :=
  "\n        \n        Requirements:\n        1. Generate a single, executable shell command\n        2. Focus on security and penetration testing tools\n        3. Include appropriate flags and parameters\n        4. Consider safety and legal implications\n        5. Use common security tools like nmap, nikto, dirb, etc.\n        6. Provide a command that would be useful for ethical hacking\n        \n        Return only the shell command, no explanations.\n        "

/-- The f-string prompt built by `ShellTranslator._translate_with_ai`. -/
def translatePrompt (naturalLanguage : String) : String :=
  translatePromptPre ++ naturalLanguage ++ translatePromptPost

/-- `ShellTranslator._fallback_translation`. -/
def fallback_translation (naturalLanguage : String) : String :=
  let tl := pyLower naturalLanguage
  if strContains tl "port" && strContains tl "scan" then
    "nmap -sS -p 80,443,22,21,23,25,53 " ++ extract_target naturalLanguage
  else if strContains tl "web" && strContains tl "scan" then
    "nikto -h " ++ extract_target naturalLanguage
  else if strContains tl "directory" || strContains tl "dir" then
    "dirb http://" ++ extract_target naturalLanguage
  else if strContains tl "password" && strContains tl "crack" then
    "john --wordlist=/usr/share/wordlists/rockyou.txt hash.txt"
  else if strContains tl "wifi" || strContains tl "wireless" then
    "airodump-ng wlan0"
  else
    "# No specific command found for: " ++ naturalLanguage ++
      "\n# Please use AI assistance for better translation"

/-- `ShellTranslator._translate_with_ai`: inside one `try`, call Claude if
configured, else the local LLM if configured, else fall back; any exception
from either call also falls back.  The successful response is `.strip()`ped. -/
def translate_with_ai (b : AIBackends) (naturalLanguage : String) : String :=
  match b.claude with
  | some f =>
    match f (translatePrompt naturalLanguage) with
    | .ok r => pyStrip r
    | .error _ => fallback_translation naturalLanguage
  | none =>
    match b.localLLM with
    | some g =>
      match g (translatePrompt naturalLanguage) with
      | .ok r => pyStrip r
      | .error _ => fallback_translation naturalLanguage
    | none => fallback_translation naturalLanguage

/-- `ShellTranslator.translate`. -/
def ShellTranslator.translate (b : AIBackends) (naturalLanguage : String) : String :=
  if pyStrip naturalLanguage = "" then
    "❌ Please provide a description of what you want to do."
  else
    let nl := pyStrip naturalLanguage
    match match_security_patterns nl with
    | some c => c
    | none => translate_with_ai b nl

/-- The result dict of `ShellTranslator.validate_command`. -/
structure ValidationResult where
  safe : Bool
  warnings : List String
  recommendations : List String
deriving DecidableEq

/-- The `dangerous_patterns` list of `validate_command`, each with its Python
source text (used in the warning message) and its compiled form.  The patterns
are matched with `re.IGNORECASE`, hence the case-insensitive literals. -/
def dangerousPatterns : List (String × Rx) :=
  [("rm\\s+-rf\\s+/",
      Rx.cat (litCI "rm") (Rx.cat (plus1 (Rx.cls .wsC))
        (Rx.cat (litCI "-rf") (Rx.cat (plus1 (Rx.cls .wsC)) (lit "/"))))),
   ("dd\\s+if=/dev/zero",
      Rx.cat (litCI "dd") (Rx.cat (plus1 (Rx.cls .wsC)) (litCI "if=/dev/zero"))),
   (":\\(\\)\\s*\\\x7b\\s*:\\|:\\s*&\\s*\\\x7d",
      Rx.cat (lit ":()") (Rx.cat (star0 (Rx.cls .wsC))
        (Rx.cat (lit "\x7b") (Rx.cat (star0 (Rx.cls .wsC))
          (Rx.cat (lit ":|:") (Rx.cat (star0 (Rx.cls .wsC))
            (Rx.cat (lit "&") (Rx.cat (star0 (Rx.cls .wsC)) (lit "\x7d"))))))))),
   ("chmod\\s+777\\s+/",
      Rx.cat (litCI "chmod") (Rx.cat (plus1 (Rx.cls .wsC))
        (Rx.cat (lit "777") (Rx.cat (plus1 (Rx.cls .wsC)) (lit "/"))))),
   ("chown\\s+root\\s+/",
      Rx.cat (litCI "chown") (Rx.cat (plus1 (Rx.cls .wsC))
        (Rx.cat (litCI "root") (Rx.cat (plus1 (Rx.cls .wsC)) (lit "/"))))),
   ("mkfs\\s+", Rx.cat (litCI "mkfs") (plus1 (Rx.cls .wsC))),
   ("fdisk\\s+", Rx.cat (litCI "fdisk") (plus1 (Rx.cls .wsC))),
   ("format\\s+", Rx.cat (litCI "format") (plus1 (Rx.cls .wsC))),
   ("wipe\\s+", Rx.cat (litCI "wipe") (plus1 (Rx.cls .wsC))),
   ("shred\\s+", Rx.cat (litCI "shred") (plus1 (Rx.cls .wsC)))]

/-- One iteration of the `for pattern in dangerous_patterns` loop. -/
def dangerStep (command : String) (acc : ValidationResult) (p : String × Rx) :
    ValidationResult :=
  if (reSearch p.2 command).isSome then
    { acc with
        safe := false
        warnings := acc.warnings ++ ["Dangerous command pattern detected: " ++ p.1] }
  else acc

/-- `ShellTranslator.validate_command`. -/
def validate_command (command : String) : ValidationResult :=
  let r0 : ValidationResult := ⟨true, [], []⟩
  let r1 := dangerousPatterns.foldl (dangerStep command) r0
  let r2 :=
    if strContains command "nmap" && !(reSearch nmapTargetRx command).isSome then
      { r1 with warnings := r1.warnings ++
          ["Network scan without specific target - ensure you have authorization"] }
    else r1
  let r3 :=
    if ["hydra", "john", "hashcat"].any (fun t => strContains (pyLower command) t) then
      { r2 with warnings := r2.warnings ++
          ["Password attack tool detected - ensure you have authorization"] }
    else r2
  let r4 :=
    if ["sqlmap", "nikto", "dirb"].any (fun t => strContains (pyLower command) t) then
      { r3 with warnings := r3.warnings ++
          ["Web security tool detected - ensure you have authorization"] }
    else r3
  if r4.warnings = [] then
    { r4 with recommendations := r4.recommendations ++
        ["Command appears safe for authorized testing"] }
  else
    { r4 with recommendations := r4.recommendations ++
        ["Review warnings before executing", "Ensure you have proper authorization",
         "Test in isolated environment first"] }

/-! ## `explain.py` — `CommandExplainer` -/

/-- `CommandExplainer._fallback_explanation`. -/
def fallback_explanation (command : String) : String :=
  "\n        📋 Command: " ++ command ++ "\n        \n        🔍 Basic Explanation:\n        This appears to be a Linux/Unix command. Without AI assistance, I can\x27t provide a detailed explanation.\n        \n        💡 Tips:\n        - Use \x27man <command>\x27 for manual pages\n        - Use \x27--help\x27 flag for built-in help\n        - Check online documentation for detailed usage\n        \n        🛠️ To get AI-powered explanations, please:\n        1. Set up your API keys in config.json\n        2. Install required dependencies\n        3. Restart the assistant\n        "

/-- `CommandExplainer._get_ai_response`: Claude if configured, else the local
LLM, else a static fallback; an exception from the tried call also yields the
static fallback. -/
def egetAiResponse (b : AIBackends) (prompt : String) : String :=
  match b.claude with
  | some f =>
    match f prompt with
    | .ok r => r
    | .error _ => fallback_explanation "AI error occurred"
  | none =>
    match b.localLLM with
    | some g =>
      match g prompt with
      | .ok r => r
      | .error _ => fallback_explanation "AI error occurred"
    | none => fallback_explanation "AI not available"
/-- Prompt template of `CommandExplainer._explain_nmap`. -/
def promptNmap (command : String) : String :=
  "\n        Explain this nmap command in detail for network security testing:\n        \n        Command: " ++ command ++ "\n        \n        Include:\n        1. What this specific nmap scan does\n        2. Meaning of each flag and parameter\n        3. What information it will reveal\n        4. Legal and ethical considerations\n        5. Common variations and alternatives\n        6. Expected output format\n        7. Security implications\n        \n        Focus on practical security testing scenarios.\n        "

/-- `CommandExplainer._explain_nmap`. -/
def explainNmap (b : AIBackends) (command : String) : String :=
  egetAiResponse b (promptNmap command)

/-- Prompt template of `CommandExplainer._explain_metasploit`. -/
def promptMetasploit (command : String) : String :=
  "\n        Explain this Metasploit command for penetration testing:\n        \n        Command: " ++ command ++ "\n        \n        Include:\n        1. What this Metasploit module/command does\n        2. Target system requirements\n        3. Required parameters and options\n        4. Expected outcomes and payloads\n        5. Legal and ethical considerations\n        6. Risk assessment\n        7. Post-exploitation steps\n        \n        Emphasize responsible disclosure and authorized testing only.\n        "

/-- `CommandExplainer._explain_metasploit`. -/
def explainMetasploit (b : AIBackends) (command : String) : String :=
  egetAiResponse b (promptMetasploit command)

/-- Prompt template of `CommandExplainer._explain_sqlmap`. -/
def promptSqlmap (command : String) : String :=
  "\n        Explain this sqlmap command for SQL injection testing:\n        \n        Command: " ++ command ++ "\n        \n        Include:\n        1. What this sqlmap scan targets\n        2. Injection techniques being used\n        3. Database fingerprinting process\n        4. Data extraction capabilities\n        5. Legal and ethical considerations\n        6. Responsible disclosure practices\n        7. Alternative testing methods\n        \n        Emphasize authorized testing and responsible disclosure.\n        "

/-- `CommandExplainer._explain_sqlmap`. -/
def explainSqlmap (b : AIBackends) (command : String) : String :=
  egetAiResponse b (promptSqlmap command)

/-- Prompt template of `CommandExplainer._explain_hydra`. -/
def promptHydra (command : String) : String :=
  "\n        Explain this Hydra command for brute force testing:\n        \n        Command: " ++ command ++ "\n        \n        Include:\n        1. What service is being tested\n        2. Brute force methodology\n        3. Wordlist considerations\n        4. Rate limiting and timing\n        5. Legal and ethical considerations\n        6. Account lockout risks\n        7. Alternative testing approaches\n        \n        Emphasize authorized testing and account protection.\n        "

/-- `CommandExplainer._explain_hydra`. -/
def explainHydra (b : AIBackends) (command : String) : String :=
  egetAiResponse b (promptHydra command)

/-- Prompt template of `CommandExplainer._explain_aircrack`. -/
def promptAircrack (command : String) : String :=
  "\n        Explain this aircrack-ng command for wireless security testing:\n        \n        Command: " ++ command ++ "\n        \n        Include:\n        1. What wireless attack/analysis is being performed\n        2. Capture file analysis process\n        3. Password cracking methodology\n        4. Legal and ethical considerations\n        5. Wireless security implications\n        6. Countermeasures and protection\n        7. Responsible testing practices\n        \n        Emphasize authorized testing and wireless security awareness.\n        "

/-- `CommandExplainer._explain_aircrack`. -/
def explainAircrack (b : AIBackends) (command : String) : String :=
  egetAiResponse b (promptAircrack command)

/-- Prompt template of `CommandExplainer._explain_wireshark`. -/
def promptWireshark (command : String) : String :=
  "\n        Explain this Wireshark command for network analysis:\n        \n        Command: " ++ command ++ "\n        \n        Include:\n        1. What network traffic is being analyzed\n        2. Capture filters and display filters\n        3. Protocol analysis capabilities\n        4. Security implications of captured data\n        5. Privacy considerations\n        6. Legal compliance requirements\n        7. Network troubleshooting applications\n        \n        Emphasize privacy protection and authorized monitoring.\n        "

/-- `CommandExplainer._explain_wireshark`. -/
def explainWireshark (b : AIBackends) (command : String) : String :=
  egetAiResponse b (promptWireshark command)

/-- Prompt template of `CommandExplainer._explain_tcpdump`. -/
def promptTcpdump (command : String) : String :=
  "\n        Explain this tcpdump command for packet capture:\n        \n        Command: " ++ command ++ "\n        \n        Include:\n        1. What network traffic is being captured\n        2. Filter syntax and options\n        3. Output format and analysis\n        4. Network troubleshooting applications\n        5. Security monitoring capabilities\n        6. Legal and privacy considerations\n        7. Performance implications\n        \n        Emphasize authorized monitoring and privacy protection.\n        "

/-- `CommandExplainer._explain_tcpdump`. -/
def explainTcpdump (b : AIBackends) (command : String) : String :=
  egetAiResponse b (promptTcpdump command)

/-- Prompt template of `CommandExplainer._explain_netcat`. -/
def promptNetcat (command : String) : String :=
  "\n        Explain this netcat command for network connectivity testing:\n        \n        Command: " ++ command ++ "\n        \n        Include:\n        1. What network operation is being performed\n        2. Connection establishment process\n        3. Data transfer capabilities\n        4. Security testing applications\n        5. Network troubleshooting uses\n        6. Legal and ethical considerations\n        7. Alternative tools and methods\n        \n        Emphasize authorized testing and network security.\n        "

/-- `CommandExplainer._explain_netcat`. -/
def explainNetcat (b : AIBackends) (command : String) : String :=
  egetAiResponse b (promptNetcat command)

/-- Prompt template of `CommandExplainer._explain_john`. -/
def promptJohn (command : String) : String :=
  "\n        Explain this John the Ripper command for password cracking:\n        \n        Command: " ++ command ++ "\n        \n        Include:\n        1. What password hash is being cracked\n        2. Cracking methodology and algorithms\n        3. Wordlist and rule-based attacks\n        4. Performance considerations\n        5. Legal and ethical considerations\n        6. Password security implications\n        7. Responsible testing practices\n        \n        Emphasize authorized testing and password security awareness.\n        "

/-- `CommandExplainer._explain_john`. -/
def explainJohn (b : AIBackends) (command : String) : String :=
  egetAiResponse b (promptJohn command)

/-- Prompt template of `CommandExplainer._explain_hashcat`. -/
def promptHashcat (command : String) : String :=
  "\n        Explain this hashcat command for password recovery:\n        \n        Command: " ++ command ++ "\n        \n        Include:\n        1. What hash type is being processed\n        2. Attack modes and methodologies\n        3. Hardware acceleration capabilities\n        4. Performance optimization\n        5. Legal and ethical considerations\n        6. Password security implications\n        7. Responsible testing practices\n        \n        Emphasize authorized testing and password security.\n        "

/-- `CommandExplainer._explain_hashcat`. -/
def explainHashcat (b : AIBackends) (command : String) : String :=
  egetAiResponse b (promptHashcat command)

/-- Prompt template of `CommandExplainer._explain_volatility`. -/
def promptVolatility (command : String) : String :=
  "\n        Explain this Volatility command for memory forensics:\n        \n        Command: " ++ command ++ "\n        \n        Include:\n        1. What memory analysis is being performed\n        2. Memory dump analysis process\n        3. Malware detection capabilities\n        4. Forensic investigation applications\n        5. Legal and compliance considerations\n        6. Evidence handling procedures\n        7. Incident response applications\n        \n        Emphasize forensic integrity and legal compliance.\n        "

/-- `CommandExplainer._explain_volatility`. -/
def explainVolatility (b : AIBackends) (command : String) : String :=
  egetAiResponse b (promptVolatility command)

/-- Prompt template of `CommandExplainer._explain_ghidra`. -/
def promptGhidra (command : String) : String :=
  "\n        Explain this Ghidra command for reverse engineering:\n        \n        Command: " ++ command ++ "\n        \n        Include:\n        1. What binary analysis is being performed\n        2. Disassembly and decompilation process\n        3. Malware analysis capabilities\n        4. Vulnerability research applications\n        5. Legal and ethical considerations\n        6. Intellectual property concerns\n        7. Responsible disclosure practices\n        \n        Emphasize authorized analysis and legal compliance.\n        "

/-- `CommandExplainer._explain_ghidra`. -/
def explainGhidra (b : AIBackends) (command : String) : String :=
  egetAiResponse b (promptGhidra command)

/-- Prompt template of `CommandExplainer._explain_radare2`. -/
def promptRadare2 (command : String) : String :=
  "\n        Explain this radare2 command for binary analysis:\n        \n        Command: " ++ command ++ "\n        \n        Include:\n        1. What binary analysis is being performed\n        2. Disassembly and debugging capabilities\n        3. Malware analysis applications\n        4. Vulnerability research uses\n        5. Legal and ethical considerations\n        6. Reverse engineering techniques\n        7. Responsible analysis practices\n        \n        Emphasize authorized analysis and legal compliance.\n        "

/-- `CommandExplainer._explain_radare2`. -/
def explainRadare2 (b : AIBackends) (command : String) : String :=
  egetAiResponse b (promptRadare2 command)

/-- Prompt template of `CommandExplainer._explain_beef`. -/
def promptBeef (command : String) : String :=
  "\n        Explain this BeEF command for browser exploitation:\n        \n        Command: " ++ command ++ "\n        \n        Include:\n        1. What browser exploitation is being performed\n        2. Client-side attack methodology\n        3. JavaScript injection techniques\n        4. Legal and ethical considerations\n        5. Responsible testing practices\n        6. Browser security implications\n        7. Alternative testing approaches\n        \n        Emphasize authorized testing and responsible disclosure.\n        "

/-- `CommandExplainer._explain_beef`. -/
def explainBeef (b : AIBackends) (command : String) : String :=
  egetAiResponse b (promptBeef command)

/-- Prompt template of `CommandExplainer._explain_maltego`. -/
def promptMaltego (command : String) : String :=
  "\n        Explain this Maltego command for OSINT gathering:\n        \n        Command: " ++ command ++ "\n        \n        Include:\n        1. What OSINT investigation is being performed\n        2. Data collection and correlation process\n        3. Privacy and legal considerations\n        4. Responsible information gathering\n        5. Threat intelligence applications\n        6. Data protection requirements\n        7. Ethical investigation practices\n        \n        Emphasize privacy protection and authorized investigation.\n        "

/-- `CommandExplainer._explain_maltego`. -/
def explainMaltego (b : AIBackends) (command : String) : String :=
  egetAiResponse b (promptMaltego command)

/-- Prompt template of `CommandExplainer._explain_recon_ng`. -/
def promptReconNg (command : String) : String :=
  "\n        Explain this Recon-ng command for reconnaissance:\n        \n        Command: " ++ command ++ "\n        \n        Include:\n        1. What reconnaissance is being performed\n        2. Information gathering methodology\n        3. OSINT techniques and sources\n        4. Legal and ethical considerations\n        5. Responsible investigation practices\n        6. Threat intelligence applications\n        7. Privacy protection measures\n        \n        Emphasize authorized investigation and privacy protection.\n        "

/-- `CommandExplainer._explain_recon_ng`. -/
def explainReconNg (b : AIBackends) (command : String) : String :=
  egetAiResponse b (promptReconNg command)

/-- Prompt template of `CommandExplainer._explain_theharvester`. -/
def promptTheharvester (command : String) : String :=
  "\n        Explain this theHarvester command for email enumeration:\n        \n        Command: " ++ command ++ "\n        \n        Include:\n        1. What email enumeration is being performed\n        2. Data source collection process\n        3. Privacy and legal considerations\n        4. Responsible information gathering\n        5. OSINT applications\n        6. Data protection requirements\n        7. Ethical investigation practices\n        \n        Emphasize privacy protection and authorized investigation.\n        "

/-- `CommandExplainer._explain_theharvester`. -/
def explainTheharvester (b : AIBackends) (command : String) : String :=
  egetAiResponse b (promptTheharvester command)

/-- Prompt template of `CommandExplainer._explain_amass`. -/
def promptAmass (command : String) : String :=
  "\n        Explain this Amass command for subdomain enumeration:\n        \n        Command: " ++ command ++ "\n        \n        Include:\n        1. What subdomain enumeration is being performed\n        2. DNS reconnaissance methodology\n        3. Data source integration\n        4. Legal and ethical considerations\n        5. Responsible investigation practices\n        6. Attack surface mapping applications\n        7. Privacy protection measures\n        \n        Emphasize authorized investigation and responsible disclosure.\n        "

/-- `CommandExplainer._explain_amass`. -/
def explainAmass (b : AIBackends) (command : String) : String :=
  egetAiResponse b (promptAmass command)

/-- Prompt template of `CommandExplainer._explain_dirb`. -/
def promptDirb (command : String) : String :=
  "\n        Explain this dirb command for directory enumeration:\n        \n        Command: " ++ command ++ "\n        \n        Include:\n        1. What directory enumeration is being performed\n        2. Web crawling methodology\n        3. Wordlist-based discovery\n        4. Legal and ethical considerations\n        5. Responsible testing practices\n        6. Web application security implications\n        7. Alternative testing approaches\n        \n        Emphasize authorized testing and responsible disclosure.\n        "

/-- `CommandExplainer._explain_dirb`. -/
def explainDirb (b : AIBackends) (command : String) : String :=
  egetAiResponse b (promptDirb command)

/-- Prompt template of `CommandExplainer._explain_nikto`. -/
def promptNikto (command : String) : String :=
  "\n        Explain this Nikto command for web vulnerability scanning:\n        \n        Command: " ++ command ++ "\n        \n        Include:\n        1. What web vulnerability scan is being performed\n        2. Security test methodology\n        3. Vulnerability detection capabilities\n        4. Legal and ethical considerations\n        5. Responsible testing practices\n        6. Web application security implications\n        7. Alternative testing approaches\n        \n        Emphasize authorized testing and responsible disclosure.\n        "

/-- `CommandExplainer._explain_nikto`. -/
def explainNikto (b : AIBackends) (command : String) : String :=
  egetAiResponse b (promptNikto command)

/-- Prompt template of `CommandExplainer._explain_wpscan`. -/
def promptWpscan (command : String) : String :=
  "\n        Explain this WPScan command for WordPress security testing:\n        \n        Command: " ++ command ++ "\n        \n        Include:\n        1. What WordPress security scan is being performed\n        2. Vulnerability detection methodology\n        3. Plugin and theme analysis\n        4. Legal and ethical considerations\n        5. Responsible testing practices\n        6. WordPress security implications\n        7. Alternative testing approaches\n        \n        Emphasize authorized testing and responsible disclosure.\n        "

/-- `CommandExplainer._explain_wpscan`. -/
def explainWpscan (b : AIBackends) (command : String) : String :=
  egetAiResponse b (promptWpscan command)

/-- Prompt template of `CommandExplainer._explain_joomscan`. -/
def promptJoomscan (command : String) : String :=
  "\n        Explain this JoomScan command for Joomla security testing:\n        \n        Command: " ++ command ++ "\n        \n        Include:\n        1. What Joomla security scan is being performed\n        2. Vulnerability detection methodology\n        3. Component and extension analysis\n        4. Legal and ethical considerations\n        5. Responsible testing practices\n        6. Joomla security implications\n        7. Alternative testing approaches\n        \n        Emphasize authorized testing and responsible disclosure.\n        "

/-- `CommandExplainer._explain_joomscan`. -/
def explainJoomscan (b : AIBackends) (command : String) : String :=
  egetAiResponse b (promptJoomscan command)

/-- Prompt template of `CommandExplainer._explain_skipfish`. -/
def promptSkipfish (command : String) : String :=
  "\n        Explain this Skipfish command for web application security testing:\n        \n        Command: " ++ command ++ "\n        \n        Include:\n        1. What web application security scan is being performed\n        2. Crawling and testing methodology\n        3. Vulnerability detection capabilities\n        4. Legal and ethical considerations\n        5. Responsible testing practices\n        6. Web application security implications\n        7. Alternative testing approaches\n        \n        Emphasize authorized testing and responsible disclosure.\n        "

/-- `CommandExplainer._explain_skipfish`. -/
def explainSkipfish (b : AIBackends) (command : String) : String :=
  egetAiResponse b (promptSkipfish command)

/-- Prompt template of `CommandExplainer._explain_w3af`. -/
def promptW3af (command : String) : String :=
  "\n        Explain this w3af command for web application security testing:\n        \n        Command: " ++ command ++ "\n        \n        Include:\n        1. What web application security scan is being performed\n        2. Vulnerability detection methodology\n        3. Plugin-based testing approach\n        4. Legal and ethical considerations\n        5. Responsible testing practices\n        6. Web application security implications\n        7. Alternative testing approaches\n        \n        Emphasize authorized testing and responsible disclosure.\n        "

/-- `CommandExplainer._explain_w3af`. -/
def explainW3af (b : AIBackends) (command : String) : String :=
  egetAiResponse b (promptW3af command)

/-- Prompt template of `CommandExplainer._explain_zap`. -/
def promptZap (command : String) : String :=
  "\n        Explain this OWASP ZAP command for web application security testing:\n        \n        Command: " ++ command ++ "\n        \n        Include:\n        1. What web application security scan is being performed\n        2. Vulnerability detection methodology\n        3. Automated and manual testing capabilities\n        4. Legal and ethical considerations\n        5. Responsible testing practices\n        6. Web application security implications\n        7. Alternative testing approaches\n        \n        Emphasize authorized testing and responsible disclosure.\n        "

/-- `CommandExplainer._explain_zap`. -/
def explainZap (b : AIBackends) (command : String) : String :=
  egetAiResponse b (promptZap command)

/-- Prompt template of `CommandExplainer._explain_burp`. -/
def promptBurp (command : String) : String :=
  "\n        Explain this Burp Suite command for web application security testing:\n        \n        Command: " ++ command ++ "\n        \n        Include:\n        1. What web application security test is being performed\n        2. Proxy and interception capabilities\n        3. Vulnerability detection methodology\n        4. Legal and ethical considerations\n        5. Responsible testing practices\n        6. Web application security implications\n        7. Alternative testing approaches\n        \n        Emphasize authorized testing and responsible disclosure.\n        "

/-- `CommandExplainer._explain_burp`. -/
def explainBurp (b : AIBackends) (command : String) : String :=
  egetAiResponse b (promptBurp command)

/-- Prompt template of `CommandExplainer._explain_nessus`. -/
def promptNessus (command : String) : String :=
  "\n        Explain this Nessus command for vulnerability scanning:\n        \n        Command: " ++ command ++ "\n        \n        Include:\n        1. What vulnerability scan is being performed\n        2. Network and application testing methodology\n        3. Vulnerability detection capabilities\n        4. Legal and ethical considerations\n        5. Responsible testing practices\n        6. Security assessment implications\n        7. Alternative testing approaches\n        \n        Emphasize authorized testing and responsible disclosure.\n        "

/-- `CommandExplainer._explain_nessus`. -/
def explainNessus (b : AIBackends) (command : String) : String :=
  egetAiResponse b (promptNessus command)

/-- Prompt template of `CommandExplainer._explain_openvas`. -/
def promptOpenvas (command : String) : String :=
  "\n        Explain this OpenVAS command for vulnerability scanning:\n        \n        Command: " ++ command ++ "\n        \n        Include:\n        1. What vulnerability scan is being performed\n        2. Network and application testing methodology\n        3. Vulnerability detection capabilities\n        4. Legal and ethical considerations\n        5. Responsible testing practices\n        6. Security assessment implications\n        7. Alternative testing approaches\n        \n        Emphasize authorized testing and responsible disclosure.\n        "

/-- `CommandExplainer._explain_openvas`. -/
def explainOpenvas (b : AIBackends) (command : String) : String :=
  egetAiResponse b (promptOpenvas command)

/-- The `security_tools` dispatch table of `CommandExplainer.__init__`:
tool name mapped to its specialized explainer. -/
def security_tools : List (String × (AIBackends → String → String)) :=
  [("nmap", explainNmap),
   ("metasploit", explainMetasploit),
   ("sqlmap", explainSqlmap),
   ("hydra", explainHydra),
   ("aircrack-ng", explainAircrack),
   ("wireshark", explainWireshark),
   ("tcpdump", explainTcpdump),
   ("netcat", explainNetcat),
   ("john", explainJohn),
   ("hashcat", explainHashcat),
   ("volatility", explainVolatility),
   ("ghidra", explainGhidra),
   ("radare2", explainRadare2),
   ("beef", explainBeef),
   ("maltego", explainMaltego),
   ("recon-ng", explainReconNg),
   ("theharvester", explainTheharvester),
   ("amass", explainAmass),
   ("dirb", explainDirb),
   ("nikto", explainNikto),
   ("wpscan", explainWpscan),
   ("joomscan", explainJoomscan),
   ("skipfish", explainSkipfish),
   ("w3af", explainW3af),
   ("zap", explainZap),
   ("burp", explainBurp),
   ("nessus", explainNessus),
   ("openvas", explainOpenvas)]

/-- Fixed text before the interpolated command in `_explain_with_ai`'s prompt. -/
def explainPromptPre : String :=
  "\n        Explain this Linux/Unix command in detail for a security professional:\n        \n        Command: "

/-- Fixed text after the interpolated command in `_explain_with_ai`'s prompt. -/
def explainPromptPost : String :=
  "\n        \n        Please provide:\n        1. What the command does\n        2. What each flag/parameter means\n        3. Common use cases in security testing\n        4. Potential risks or considerations\n        5. Related commands or alternatives\n        \n        Format the response clearly with sections and examples.\n        "

/-- The f-string prompt built by `CommandExplainer._explain_with_ai`. -/
def explainPrompt (command : String) : String :=
  explainPromptPre ++ command ++ explainPromptPost

/-- `CommandExplainer._explain_with_ai`: Claude if configured, else the local
LLM, else the fallback explanation of the command; an exception from the tried
call also yields the fallback explanation. -/
def explain_with_ai (b : AIBackends) (command : String) : String :=
  match b.claude with
  | some f =>
    match f (explainPrompt command) with
    | .ok r => r
    | .error _ => fallback_explanation command
  | none =>
    match b.localLLM with
    | some g =>
      match g (explainPrompt command) with
      | .ok r => r
      | .error _ => fallback_explanation command
    | none => fallback_explanation command

/-- `CommandExplainer.explain`. -/
def CommandExplainer.explain (b : AIBackends) (command : String) : String :=
  if pyStrip command = "" then "❌ Please provide a command to explain."
  else
    let command := pyStrip command
    let mainCommand := ((pySplit command).headD "")
    match security_tools.lookup mainCommand with
    | some f => f b command
    | none => explain_with_ai b command

/-! ## `kenki_assist.py` — `KenkiAssistant`

The constructor wiring (config loading, client initialisation) is environment
interaction; the assistant's pure behaviour is modelled as functions over the
`AIBackends` that `_setup_ai_clients` produced.  `analyze_log_file`'s file read
is abstracted by passing the file's content as an argument. -/

/-- The static message of `KenkiAssistant._get_ai_response` when no model answers. -/
def noModelsMsg : String := "❌ No AI models available. Please check your configuration."

/-- `KenkiAssistant._get_ai_response`: try Claude first when configured; if that
call raises, fall through to the local LLM when configured; if it also raises
or neither is configured, return the static message. -/
def getAiResponse (b : AIBackends) (prompt : String) : String :=
  let localStep : String :=
    match b.localLLM with
    | some g =>
      match g prompt with
      | .ok r => r
      | .error _ => noModelsMsg
    | none => noModelsMsg
  match b.claude with
  | some f =>
    match f prompt with
    | .ok r => r
    | .error _ => localStep
  | none => localStep

/-- `KenkiAssistant._format_response`. -/
def format_response (title content originalInput : String) : String :=
  let border := String.mk (List.replicate 60 '=')
  "\n" ++ border ++ "\n🧠 KENKI OS AI Assistant - " ++ title ++ "\n" ++ border ++
    "\n\n📝 Input: " ++ originalInput ++ "\n\n💡 Response:\n" ++ content ++
    "\n\n" ++ border ++ "\n"

/-- `KenkiAssistant.explain_command`. -/
def explain_command (b : AIBackends) (command : String) : String :=
  if pyStrip command = "" then "❌ Please provide a command to explain."
  else format_response "Command Explanation" (CommandExplainer.explain b command) command

/-- `KenkiAssistant.translate_to_shell`. -/
def translate_to_shell (b : AIBackends) (naturalLanguage : String) : String :=
  if pyStrip naturalLanguage = "" then
    "❌ Please provide a description of what you want to do."
  else
    format_response "Shell Translation" (ShellTranslator.translate b naturalLanguage)
      naturalLanguage

/-- Fixed text before the interpolated tool name in `analyze_security_tool`'s prompt. -/
def guidePromptPre : String :=
  "\n        Provide a comprehensive guide for using "

/-- Fixed text between the tool name and the context in `analyze_security_tool`'s prompt. -/
def guidePromptMid : String :=
  " in ethical hacking and security testing.\n        \n        Include:\n        1. Basic usage examples\n        2. Common parameters and flags\n        3. Security best practices\n        4. Legal considerations\n        5. Real-world use cases\n        \n        Context: "

/-- Fixed text after the context in `analyze_security_tool`'s prompt. -/
def guidePromptPost : String := "\n        "

/-- The f-string prompt built by `KenkiAssistant.analyze_security_tool`. -/
def guidePrompt (toolName context : String) : String :=
  guidePromptPre ++ toolName ++ guidePromptMid ++ context ++ guidePromptPost

/-- `KenkiAssistant.analyze_security_tool`. -/
def analyze_security_tool (b : AIBackends) (toolName context : String) : String :=
  format_response "Security Tool Guide" (getAiResponse b (guidePrompt toolName context))
    toolName

/-- Fixed text before the interpolated log content in `analyze_log_file`'s prompt. -/
def logPromptPre : String :=
  "\n            Analyze this log file for security insights, anomalies, and potential threats:\n            \n            "

/-- Fixed text after the interpolated log content in `analyze_log_file`'s prompt. -/
def logPromptPost : String :=
  "\n            \n            Provide:\n            1. Summary of log contents\n            2. Potential security issues\n            3. Recommended actions\n            4. Tools to investigate further\n            "

/-- The f-string prompt of `KenkiAssistant.analyze_log_file`, applied to the
already-truncated log content. -/
def logPrompt (logContent : String) : String :=
  logPromptPre ++ logContent ++ logPromptPost

/-- The prompt `analyze_log_file` sends for a log file whose full content is
`fileContent`: the code truncates with `f.read()[:5000]` before interpolating. -/
def logPromptSent (fileContent : String) : String :=
  logPrompt (String.mk (fileContent.data.take 5000))

/-- `KenkiAssistant.analyze_log_file`, with the file read abstracted:
`fileContent` is what `f.read()` returned for `log_path`. -/
def analyze_log_file (b : AIBackends) (logPath fileContent : String) : String :=
  format_response "Log Analysis" (getAiResponse b (logPromptSent fileContent)) logPath

/-! ## Concrete backends and failure predicates -/

/-- Only a Claude client, answering every prompt with `r`. -/
def aiOk (r : String) : AIBackends := ⟨some (fun _ => Except.ok r), none⟩

/-- Only a Claude client, raising on every call. -/
def aiErr : AIBackends := ⟨some (fun _ => Except.error "boom"), none⟩

/-- No AI clients configured. -/
def aiNone : AIBackends := ⟨none, none⟩

/-- Only a local model, answering every prompt with `r`. -/
def aiLocalOk (r : String) : AIBackends := ⟨none, some (fun _ => Except.ok r)⟩

/-- Only a local model, raising on every call. -/
def aiLocalErr : AIBackends := ⟨none, some (fun _ => Except.error "crash")⟩

/-- The Claude client is configured and its call on `prompt` raises. -/
@[reducible] def claudeRaises (b : AIBackends) (prompt : String) : Prop :=
  ∃ f e, b.claude = some f ∧ f prompt = Except.error e

/-- The local model is configured and its call on `prompt` raises. -/
@[reducible] def localRaises (b : AIBackends) (prompt : String) : Prop :=
  ∃ g e, b.localLLM = some g ∧ g prompt = Except.error e

/-- The Claude client is unconfigured, or its call on `prompt` raises. -/
@[reducible] def claudeAbsentOrRaises (b : AIBackends) (prompt : String) : Prop :=
  b.claude = none ∨ claudeRaises b prompt

/-- The local model is unconfigured, or its call on `prompt` raises. -/
@[reducible] def localAbsentOrRaises (b : AIBackends) (prompt : String) : Prop :=
  b.localLLM = none ∨ localRaises b prompt

/-! ## Helper lemmas -/

set_option maxRecDepth 10000

theorem strData_append (a b : String) : (a ++ b).data = a.data ++ b.data := by
  cases a; cases b; rfl

theorem strAppend_empty (s : String) : s ++ "" = s := by
  cases s with
  | mk d =>
    show String.mk (d ++ []) = String.mk d
    rw [List.append_nil]

/-- The dangerous-pattern loop of `validate_command` ends unsafe exactly when
the accumulator was already unsafe or some pattern matches. -/
theorem dangerFold_safe (command : String) (l : List (String × Rx))
    (acc : ValidationResult) :
    (l.foldl (dangerStep command) acc).safe
      = (acc.safe && !(l.any fun p => (reSearch p.2 command).isSome)) := by
  induction l generalizing acc with
  | nil => simp
  | cons p l ih =>
    rw [List.foldl_cons, ih]
    by_cases h : (reSearch p.2 command).isSome
    · simp [dangerStep, h]
    · simp [dangerStep, h]

/-- The dangerous-pattern loop preserves "unsafe implies a warning exists". -/
theorem dangerFold_warn (command : String) (l : List (String × Rx))
    (acc : ValidationResult) (h : acc.safe = false → acc.warnings ≠ []) :
    (l.foldl (dangerStep command) acc).safe = false →
      (l.foldl (dangerStep command) acc).warnings ≠ [] := by
  induction l generalizing acc with
  | nil => exact h
  | cons p l ih =>
    rw [List.foldl_cons]
    refine ih _ ?_
    by_cases hm : (reSearch p.2 command).isSome
    · intro _; simp [dangerStep, hm]
    · simpa [dangerStep, hm] using h

/-- The dangerous-pattern loop never touches recommendations. -/
theorem dangerFold_recs (command : String) (l : List (String × Rx))
    (acc : ValidationResult) :
    (l.foldl (dangerStep command) acc).recommendations = acc.recommendations := by
  induction l generalizing acc with
  | nil => rfl
  | cons p l ih =>
    rw [List.foldl_cons, ih]
    by_cases h : (reSearch p.2 command).isSome
    · simp [dangerStep, h]
    · simp [dangerStep, h]

/-! ## Claims -/

/-- Claim C3: `KenkiAssistant._get_ai_response` tries the Claude client first
whenever it is configured and returns its answer on success; if the Claude call
raises (or Claude is unconfigured) the local LLM is tried next and its answer
returned on success; only when each configured client is absent or fails does
it return the static "No AI models available" message. -/
theorem C3_try_then_fallback (b : AIBackends) (p : String) :
    (∀ f r, b.claude = some f → f p = Except.ok r → getAiResponse b p = r) ∧
    (∀ g r, claudeAbsentOrRaises b p → b.localLLM = some g → g p = Except.ok r →
      getAiResponse b p = r) ∧
    (claudeAbsentOrRaises b p → localAbsentOrRaises b p →
      getAiResponse b p = noModelsMsg) := by
  refine ⟨?_, ?_, ?_⟩
  · intro f r hf hr
    simp [getAiResponse, hf, hr]
  · intro g r hc hg hr
    rcases hc with hc | ⟨f, e, hf, he⟩
    · simp [getAiResponse, hc, hg, hr]
    · simp [getAiResponse, hf, he, hg, hr]
  · intro hc hl
    rcases hc with hc | ⟨f, e, hf, he⟩ <;>
      rcases hl with hl | ⟨g, e2, hg, he2⟩ <;>
      simp [getAiResponse, *]

/-- Witness for C3 at concrete backends. -/
theorem C3_witness :
    getAiResponse (aiOk "R1") "q" = "R1" ∧
    getAiResponse (aiLocalOk "R2") "q" = "R2" ∧
    getAiResponse aiNone "q" = noModelsMsg :=
  ⟨(C3_try_then_fallback (aiOk "R1") "q").1 _ _ rfl rfl,
   (C3_try_then_fallback (aiLocalOk "R2") "q").2.1 _ _ (Or.inl rfl) rfl rfl,
   (C3_try_then_fallback aiNone "q").2.2 (Or.inl rfl) (Or.inl rfl)⟩

/-- Claim C2: an exception raised by an AI backend inside command explanation
(`_explain_with_ai`), shell translation (`_translate_with_ai`) or
`KenkiAssistant._get_ai_response` is caught inside the module and a static
fallback text is returned; the operations are total, so no backend exception
propagates. -/
theorem C2_exceptions_caught (b : AIBackends) (cmd nl p : String) :
    (claudeRaises b (explainPrompt cmd) →
      explain_with_ai b cmd = fallback_explanation cmd) ∧
    (b.claude = none → localRaises b (explainPrompt cmd) →
      explain_with_ai b cmd = fallback_explanation cmd) ∧
    (claudeRaises b (translatePrompt nl) →
      translate_with_ai b nl = fallback_translation nl) ∧
    (b.claude = none → localRaises b (translatePrompt nl) →
      translate_with_ai b nl = fallback_translation nl) ∧
    (claudeRaises b p → egetAiResponse b p = fallback_explanation "AI error occurred") ∧
    (b.claude = none → localRaises b p →
      egetAiResponse b p = fallback_explanation "AI error occurred") ∧
    (claudeAbsentOrRaises b p → localAbsentOrRaises b p →
      getAiResponse b p = noModelsMsg) := by
  refine ⟨?_, ?_, ?_, ?_, ?_, ?_, ?_⟩
  · rintro ⟨f, e, hf, he⟩
    simp [explain_with_ai, hf, he]
  · rintro hc ⟨g, e, hg, he⟩
    simp [explain_with_ai, hc, hg, he]
  · rintro ⟨f, e, hf, he⟩
    simp [translate_with_ai, hf, he]
  · rintro hc ⟨g, e, hg, he⟩
    simp [translate_with_ai, hc, hg, he]
  · rintro ⟨f, e, hf, he⟩
    simp [egetAiResponse, hf, he]
  · rintro hc ⟨g, e, hg, he⟩
    simp [egetAiResponse, hc, hg, he]
  · rintro (hc | ⟨f, e, hf, he⟩) (hl | ⟨g, e2, hg, he2⟩) <;>
      simp [getAiResponse, *]

/-- Witness for C2 at raising backends. -/
theorem C2_witness :
    explain_with_ai aiErr "ls" = fallback_explanation "ls" ∧
    translate_with_ai aiLocalErr "list files" = fallback_translation "list files" ∧
    egetAiResponse aiErr "hi" = fallback_explanation "AI error occurred" ∧
    getAiResponse aiErr "hi" = noModelsMsg :=
  ⟨(C2_exceptions_caught aiErr "ls" "list files" "hi").1 ⟨_, _, rfl, rfl⟩,
   (C2_exceptions_caught aiLocalErr "ls" "list files" "hi").2.2.2.1 rfl ⟨_, _, rfl, rfl⟩,
   (C2_exceptions_caught aiErr "ls" "list files" "hi").2.2.2.2.1 ⟨_, _, rfl, rfl⟩,
   (C2_exceptions_caught aiErr "ls" "list files" "hi").2.2.2.2.2.2
     (Or.inr ⟨_, _, rfl, rfl⟩) (Or.inl rfl)⟩

/-- Claim C9: a blank (empty or whitespace-only) input makes
`KenkiAssistant.explain_command` and `KenkiAssistant.translate_to_shell` return
their fixed error message, which starts with "❌ Please provide", independently
of the configured backends — no AI client and no pattern matcher is consulted. -/
theorem C9_blank_input (b b2 : AIBackends) (cmd : String) (h : pyStrip cmd = "") :
    explain_command b cmd = "❌ Please provide a command to explain." ∧
    translate_to_shell b cmd
      = "❌ Please provide a description of what you want to do." ∧
    explain_command b cmd = explain_command b2 cmd ∧
    translate_to_shell b cmd = translate_to_shell b2 cmd ∧
    leadsWith "❌ Please provide".data (explain_command b cmd).data = true ∧
    leadsWith "❌ Please provide".data (translate_to_shell b cmd).data = true := by
  have h1 : ∀ x : AIBackends, explain_command x cmd
      = "❌ Please provide a command to explain." := by
    intro x; simp [explain_command, h]
  have h2 : ∀ x : AIBackends, translate_to_shell x cmd
      = "❌ Please provide a description of what you want to do." := by
    intro x; simp [translate_to_shell, h]
  refine ⟨h1 b, h2 b, ?_, ?_, ?_, ?_⟩
  · rw [h1 b, h1 b2]
  · rw [h2 b, h2 b2]
  · rw [h1 b]; decide
  · rw [h2 b]; decide

/-- Witness for C9 on a whitespace-only input. -/
theorem C9_witness :
    explain_command (aiOk "X") "   " = "❌ Please provide a command to explain." ∧
    translate_to_shell aiNone "   "
      = "❌ Please provide a description of what you want to do." :=
  ⟨(C9_blank_input (aiOk "X") aiNone "   " (by decide)).1,
   (C9_blank_input aiNone (aiOk "X") "   " (by decide)).2.1⟩

/-- Claim C4: `CommandExplainer.explain` dispatches through the 28-entry
`security_tools` table keyed by the command's first whitespace-separated word:
a key hit uses the corresponding tool-specific explainer on the stripped
command, and any other (non-blank) command takes the generic AI path. -/
theorem C4_dispatch (b : AIBackends) (command : String) (h : pyStrip command ≠ "") :
    security_tools.length = 28 ∧
    (∀ f, security_tools.lookup ((pySplit (pyStrip command)).headD "") = some f →
      CommandExplainer.explain b command = f b (pyStrip command)) ∧
    (security_tools.lookup ((pySplit (pyStrip command)).headD "") = none →
      CommandExplainer.explain b command = explain_with_ai b (pyStrip command)) := by
  refine ⟨rfl, ?_, ?_⟩
  · intro f hf
    rw [List.headD_eq_head?] at hf
    simp [CommandExplainer.explain, h, hf]
  · intro hn
    rw [List.headD_eq_head?] at hn
    simp [CommandExplainer.explain, h, hn]

/-- Witness for C4: a command headed by a table key and one headed by no key. -/
theorem C4_witness :
    CommandExplainer.explain aiNone "nmap -sS" = explainNmap aiNone "nmap -sS" ∧
    CommandExplainer.explain aiNone "ls -la" = explain_with_ai aiNone "ls -la" :=
  ⟨(C4_dispatch aiNone "nmap -sS" (by decide)).2.1 explainNmap (by rfl),
   (C4_dispatch aiNone "ls -la" (by decide)).2.2 (by rfl)⟩

/-- Claim C5: `_extract_target` is decided purely by its three regexes in fixed
precedence — the first IPv4-looking match when one exists, else the first
domain-name match, else the localhost match, else the fixed default. -/
theorem C5_extract_target_precedence (text : String) :
    (∀ m, reSearch ipPattern text = some m → extract_target text = m) ∧
    (reSearch ipPattern text = none →
      ∀ m, reSearch domainPattern text = some m → extract_target text = m) ∧
    (reSearch ipPattern text = none → reSearch domainPattern text = none →
      ∀ m, reSearch hostnamePattern text = some m → extract_target text = m) ∧
    (reSearch ipPattern text = none → reSearch domainPattern text = none →
      reSearch hostnamePattern text = none → extract_target text = "192.168.1.1") := by
  refine ⟨?_, ?_, ?_, ?_⟩
  · intro m hm
    simp [extract_target, hm]
  · intro h1 m hm
    simp [extract_target, h1, hm]
  · intro h1 h2 m hm
    simp [extract_target, h1, h2, hm]
  · intro h1 h2 h3
    simp [extract_target, h1, h2, h3]

/-- Witness for C5: each precedence level at a concrete input. -/
theorem C5_witness :
    extract_target "scan 10.0.0.5 now" = "10.0.0.5" ∧
    extract_target "scan example.com please" = "example.com" ∧
    extract_target "scan localhost" = "localhost" ∧
    extract_target "scan network" = "192.168.1.1" :=
  ⟨(C5_extract_target_precedence "scan 10.0.0.5 now").1 _ (by decide),
   (C5_extract_target_precedence "scan example.com please").2.1 (by decide) _ (by decide),
   (C5_extract_target_precedence "scan localhost").2.2.1 (by decide) (by decide) _
     (by decide),
   (C5_extract_target_precedence "scan network").2.2.2 (by decide) (by decide)
     (by decide)⟩

/-- Claim C8: when none of the three regexes matches, `_extract_target` returns
the concrete default "192.168.1.1", and the pattern-generated network-scan
command therefore contains that address. -/
theorem C8_default_target (text : String)
    (h1 : reSearch ipPattern text = none)
    (h2 : reSearch domainPattern text = none)
    (h3 : reSearch hostnamePattern text = none) :
    extract_target text = "192.168.1.1" ∧
    ∃ l r, generate_network_scan_command text = l ++ "192.168.1.1" ++ r := by
  have ht : extract_target text = "192.168.1.1" := by
    simp [extract_target, h1, h2, h3]
  refine ⟨ht, ?_⟩
  simp only [generate_network_scan_command, ht]
  split_ifs <;> exact ⟨_, "", (strAppend_empty _).symm⟩

/-- Witness for C8 on an input naming no target. -/
theorem C8_witness :
    extract_target "scan network" = "192.168.1.1" ∧
    ∃ l r, generate_network_scan_command "scan network" = l ++ "192.168.1.1" ++ r :=
  C8_default_target "scan network" (by decide) (by decide) (by decide)

/-- Counterexample to claim C1 as stated: with a Claude backend configured and
answering, `ShellTranslator.translate "scan network"` is answered by the
keyword pattern layer (an nmap command), not forwarded to the AI. -/
theorem C1_counterexample :
    (aiOk "AI_ANSWER").claude.isSome = true ∧
    ShellTranslator.translate (aiOk "AI_ANSWER") "scan network"
      = generate_network_scan_command "scan network" ∧
    ShellTranslator.translate (aiOk "AI_ANSWER") "scan network"
      ≠ translate_with_ai (aiOk "AI_ANSWER") "scan network" := by
  refine ⟨rfl, by decide, by decide⟩

/-- Claim C1 (amended): `ShellTranslator.translate` consults the keyword
pattern layer first on every non-blank query, regardless of whether an AI
backend is configured; a query matching a security pattern is answered by the
pattern layer, and only a query matching no pattern is forwarded to the AI
translation path. -/
theorem C1_pattern_first (b : AIBackends) (nl : String) (h : pyStrip nl ≠ "") :
    (∀ c, match_security_patterns (pyStrip nl) = some c →
      ShellTranslator.translate b nl = c) ∧
    (match_security_patterns (pyStrip nl) = none →
      ShellTranslator.translate b nl = translate_with_ai b (pyStrip nl)) := by
  constructor
  · intro c hc
    simp [ShellTranslator.translate, h, hc]
  · intro hn
    simp [ShellTranslator.translate, h, hn]

/-- Witness for C1: the pattern hit and the pattern miss, concretely. -/
theorem C1_witness :
    ShellTranslator.translate (aiOk "AI_ANSWER") "scan network"
      = "nmap -sS -p 80,443,22,21,23,25,53 192.168.1.1" ∧
    ShellTranslator.translate (aiOk "AI_ANSWER") "list my files"
      = translate_with_ai (aiOk "AI_ANSWER") "list my files" :=
  ⟨(C1_pattern_first (aiOk "AI_ANSWER") "scan network" (by decide)).1 _ (by decide),
   (C1_pattern_first (aiOk "AI_ANSWER") "list my files" (by decide)).2 (by decide)⟩

/-- Counterexample to claim C6 as stated: for a log file longer than 5000
characters the prompt sent by `analyze_log_file` is not the template with the
content interpolated verbatim — the code truncates with `f.read()[:5000]`. -/
theorem C6_counterexample :
    logPromptSent (String.mk (List.replicate 5001 'a'))
      ≠ logPromptPre ++ String.mk (List.replicate 5001 'a') ++ logPromptPost := by
  intro h
  have h2 := congrArg (fun s => s.data.length) h
  simp only [logPromptSent, logPrompt, strData_append, List.length_append,
    List.take_replicate, List.length_replicate] at h2
  omega

/-- Claim C6 (amended): each AI-backed operation builds its prompt as a fixed
template with the input interpolated — verbatim for command explanation, shell
translation and tool guidance, and truncated to the first 5000 characters for
log analysis — and on a successful backend call the operation's answer is the
backend's response (stripped for translation, wrapped in the branded format
for tool guidance and log analysis), not computed locally. -/
theorem C6_prompt_template_passthrough (b : AIBackends)
    (cmd nl tool ctx path content r : String) :
    explainPrompt cmd = explainPromptPre ++ cmd ++ explainPromptPost ∧
    translatePrompt nl = translatePromptPre ++ nl ++ translatePromptPost ∧
    guidePrompt tool ctx
      = guidePromptPre ++ tool ++ guidePromptMid ++ ctx ++ guidePromptPost ∧
    logPromptSent content
      = logPromptPre ++ String.mk (content.data.take 5000) ++ logPromptPost ∧
    (∀ f, b.claude = some f →
      (f (explainPrompt cmd) = Except.ok r → explain_with_ai b cmd = r) ∧
      (f (translatePrompt nl) = Except.ok r → translate_with_ai b nl = pyStrip r) ∧
      (f (guidePrompt tool ctx) = Except.ok r →
        analyze_security_tool b tool ctx
          = format_response "Security Tool Guide" r tool) ∧
      (f (logPromptSent content) = Except.ok r →
        analyze_log_file b path content = format_response "Log Analysis" r path)) ∧
    (∀ g, b.claude = none → b.localLLM = some g →
      (g (explainPrompt cmd) = Except.ok r → explain_with_ai b cmd = r) ∧
      (g (translatePrompt nl) = Except.ok r → translate_with_ai b nl = pyStrip r) ∧
      (g (guidePrompt tool ctx) = Except.ok r →
        analyze_security_tool b tool ctx
          = format_response "Security Tool Guide" r tool) ∧
      (g (logPromptSent content) = Except.ok r →
        analyze_log_file b path content = format_response "Log Analysis" r path)) := by
  refine ⟨rfl, rfl, rfl, rfl, ?_, ?_⟩
  · intro f hf
    refine ⟨?_, ?_, ?_, ?_⟩ <;> intro hr
    · simp [explain_with_ai, hf, hr]
    · simp [translate_with_ai, hf, hr]
    · simp [analyze_security_tool, getAiResponse, hf, hr]
    · simp [analyze_log_file, getAiResponse, hf, hr]
  · intro g hc hg
    refine ⟨?_, ?_, ?_, ?_⟩ <;> intro hr
    · simp [explain_with_ai, hc, hg, hr]
    · simp [translate_with_ai, hc, hg, hr]
    · simp [analyze_security_tool, getAiResponse, hc, hg, hr]
    · simp [analyze_log_file, getAiResponse, hc, hg, hr]

/-- Witness for C6 at a concrete answering backend. -/
theorem C6_witness :
    explain_with_ai (aiOk "RESP") "ls -la" = "RESP" ∧
    translate_with_ai (aiOk "RESP") "list files" = pyStrip "RESP" ∧
    analyze_security_tool (aiOk "RESP") "nmap" ""
      = format_response "Security Tool Guide" "RESP" "nmap" ∧
    analyze_log_file (aiLocalOk "L") "/var/log/auth.log" "failed login"
      = format_response "Log Analysis" "L" "/var/log/auth.log" :=
  ⟨((C6_prompt_template_passthrough (aiOk "RESP") "ls -la" "list files" "nmap" ""
      "p" "c" "RESP").2.2.2.2.1 _ rfl).1 rfl,
   ((C6_prompt_template_passthrough (aiOk "RESP") "ls -la" "list files" "nmap" ""
      "p" "c" "RESP").2.2.2.2.1 _ rfl).2.1 rfl,
   ((C6_prompt_template_passthrough (aiOk "RESP") "ls -la" "list files" "nmap" ""
      "p" "c" "RESP").2.2.2.2.1 _ rfl).2.2.1 rfl,
   ((C6_prompt_template_passthrough (aiLocalOk "L") "ls" "nl" "t" "c"
      "/var/log/auth.log" "failed login" "L").2.2.2.2.2 _ rfl rfl).2.2.2 rfl⟩

/-- Claim C10: `validate_command` reports `safe = False` exactly when one of
the ten dangerous patterns matches (case-insensitively); an unsafe result
always carries at least one warning, and every result carries at least one
recommendation. -/
theorem C10_validate (command : String) :
    dangerousPatterns.length = 10 ∧
    ((validate_command command).safe = false ↔
      ∃ p ∈ dangerousPatterns, (reSearch p.2 command).isSome = true) ∧
    ((validate_command command).safe = false →
      (validate_command command).warnings ≠ []) ∧
    (validate_command command).recommendations ≠ [] := by
  have hsafe1 : (dangerousPatterns.foldl (dangerStep command) ⟨true, [], []⟩).safe
      = !(dangerousPatterns.any fun p => (reSearch p.2 command).isSome) := by
    rw [dangerFold_safe]; simp
  have hwarn1 : (dangerousPatterns.foldl (dangerStep command) ⟨true, [], []⟩).safe
        = false →
      (dangerousPatterns.foldl (dangerStep command) ⟨true, [], []⟩).warnings ≠ [] :=
    dangerFold_warn command dangerousPatterns ⟨true, [], []⟩ (by simp)
  refine ⟨rfl, ?_, ?_, ?_⟩
  · simp only [validate_command]
    split_ifs <;> simp [hsafe1, List.any_eq_true]
  · simp only [validate_command]
    split_ifs <;> intro hf <;>
      simp only at hf <;>
      have hw := hwarn1 hf <;>
      simp [List.append_eq_nil, hw]
  · simp only [validate_command]
    split_ifs <;> simp [List.append_eq_nil]

/-- Witness for C10: a dangerous command is flagged unsafe with a warning, and
a harmless command still gets a recommendation. -/
theorem C10_witness :
    (validate_command "sudo rm -rf /").safe = false ∧
    (validate_command "sudo rm -rf /").warnings ≠ [] ∧
    (validate_command "ls").recommendations ≠ [] := by
  have hs := (C10_validate "sudo rm -rf /").2.1.mpr
    ⟨dangerousPatterns.head (by decide), List.head_mem _, by decide⟩
  exact ⟨hs, (C10_validate "sudo rm -rf /").2.2.1 hs, (C10_validate "ls").2.2.2⟩
